import Mathlib

/-!
# eswifi-udp-poll-demo: the poll loop of `src/main.c`

A shallow embedding of `src/main.c` (with `src/config.h`).  The program is a
single thread that builds a two-slot `zsock_pollfd` array (slot 0: a UDP
socket, slot 1: an eventfd fed by a periodic timer), then calls `_poll` in
an endless loop and sleeps 5 s whenever `_poll` returns a negative value.

Conventions of the embedding.

* C `int` values are `Int`; where the program computes on a run-time `int`
  (`-errno`, `count++`) the result is reduced to the 32-bit two's complement
  range by `wrap_int`.  The conversion of an `int` to `size_t` or `uint64_t`
  is reduction modulo `2 ^ w`.
* Every call that leaves the program (`zsock_poll`, `eventfd_read`,
  `zsock_recvfrom`, `zsock_close`, `k_msleep`, ...) is answered by an
  environment record and is appended to a trace of `Call`s, in program
  order.  Of the log lines only the two that deliver data are traced
  (`"Received eventfd event, value: ..."` and `"Received: %s"`); the other
  log lines are diagnostics with no effect on control flow.
* The values of the Zephyr constants (`ZSOCK_POLL*`, `E*`) and the width of
  `size_t` are not part of this repository; they are the fields of
  `Platform`, a parameter of every definition that uses them.
-/

namespace EswifiUdpPollDemo

/-! ## Platform constants and machine integers -/

/-- Constants that `src/main.c` takes from the Zephyr headers, and the width
of `size_t` on the target. -/
structure Platform where
  ZSOCK_POLLIN : Nat
  ZSOCK_POLLERR : Nat
  ZSOCK_POLLHUP : Nat
  ZSOCK_POLLNVAL : Nat
  ETIMEDOUT : Int
  EINVAL : Int
  EBADF : Int
  ECONNABORTED : Int
  ECONNRESET : Int
  ENOBUFS : Int
  size_t_bits : Nat
deriving Repr, DecidableEq

/-- The values of a 32-bit Zephyr build: poll bits of `zephyr/net/socket.h`,
error numbers of `zephyr/lib/libc/minimal/include/errno.h`. -/
def zephyr : Platform :=
  { ZSOCK_POLLIN := 1, ZSOCK_POLLERR := 8, ZSOCK_POLLHUP := 16, ZSOCK_POLLNVAL := 32,
    ETIMEDOUT := 116, EINVAL := 22, EBADF := 9, ECONNABORTED := 113,
    ECONNRESET := 104, ENOBUFS := 105, size_t_bits := 32 }

/-- Reduction of an integer to the range of a 32-bit two's complement `int`. -/
def wrap_int (x : Int) : Int := (x + 2 ^ 31) % 2 ^ 32 - 2 ^ 31

/-- Conversion of an `int` to an unsigned type of `w` bits. -/
def to_unsigned (w : Nat) (x : Int) : Nat := (x % 2 ^ w).toNat

/-! ## `config.h` and the scenario selection (`main.c` lines 18-35) -/

/-- The three settings of `config.h`: exactly one of the flags is 1. -/
inductive Scenario where
  | socketOnly
  | eventfdOnly
  | socketAndEventfd
deriving Repr, DecidableEq

def SOCKET_ONLY : Scenario → Bool
  | .socketOnly => true
  | _ => false

def EVENTFD_ONLY : Scenario → Bool
  | .eventfdOnly => true
  | _ => false

def SOCKET_AND_EVENTFD : Scenario → Bool
  | .socketAndEventfd => true
  | _ => false

def POLL_TIMEOUT : Int := -1

def SOCKET_FD_IDX : Nat := 0

def EVENT_FD_IDX : Nat := 1

/-- The `#if SOCKET_ONLY / #elif EVENTFD_ONLY / #elif SOCKET_AND_EVENTFD`
chain, first component. -/
def EVENT_OFFSET (sc : Scenario) : Nat :=
  if SOCKET_ONLY sc then 0
  else if EVENTFD_ONLY sc then 1
  else 0

/-- The same chain, second component. -/
def EVENT_COUNT (sc : Scenario) : Nat :=
  if SOCKET_ONLY sc then 1
  else if EVENTFD_ONLY sc then 1
  else 2

/-! ## Poll descriptors and the trace of external calls -/

structure zsock_pollfd where
  fd : Int
  events : Nat
  revents : Nat
deriving Repr, DecidableEq

/-- The array `struct zsock_pollfd pollfds[2]` of `main`: `slot0` is
`pollfds[SOCKET_FD_IDX]`, `slot1` is `pollfds[EVENT_FD_IDX]`. -/
structure Pollfds where
  slot0 : zsock_pollfd
  slot1 : zsock_pollfd
deriving Repr, DecidableEq

/-- The entries `p[off], ..., p[off + cnt - 1]`: what `zsock_poll(p + off, cnt, _)`
is given. -/
def active (p : Pollfds) (off cnt : Nat) : List zsock_pollfd :=
  ([p.slot0, p.slot1].drop off).take cnt

/-- The calls the program makes to its surroundings, with their arguments.
`log_event v` is `LOG_INF("Received eventfd event, value: %lld", event)`;
`log_received s` is `LOG_INF("Received: %s", rx_buf)`, where `s` is the text
that `%s` prints, or `none` when the buffer holds no terminating NUL and the
read runs past the end of the array. -/
inductive Call where
  | zsock_poll (fds : List zsock_pollfd) (nfds : Nat) (timeout : Int)
  | eventfd_read (fd : Int)
  | log_event (value : Nat)
  | zsock_close (sock : Int)
  | zsock_recvfrom (sock : Int) (len : Nat)
  | log_received (text : Option (List Nat))
  | k_msleep (ms : Int)
deriving Repr, DecidableEq

/-- What `zsock_recvfrom` does in one call: it receives a datagram with the
given payload (one `Nat` per byte), or it fails and returns a negative value. -/
inductive RecvOutcome where
  | datagram (payload : List Nat)
  | error (ret : Int)
deriving Repr, DecidableEq

/-- The answers of the surroundings during one call of `_poll`. -/
structure PollEnv where
  /-- return value of `zsock_poll` -/
  events : Int
  /-- value of `errno` after `zsock_poll` -/
  errno : Int
  /-- the `revents` that `zsock_poll` stores for slot 0 when the slot is polled -/
  revents0 : Nat
  /-- the `revents` that `zsock_poll` stores for slot 1 when the slot is polled -/
  revents1 : Nat
  /-- return value of `eventfd_read` -/
  eventfd_ret : Int
  /-- value that `eventfd_read` stores in `event` -/
  event : Nat
  /-- outcome of `zsock_recvfrom` -/
  recv : RecvOutcome
deriving Repr, DecidableEq

/-- The effect of `zsock_poll(pollfds + off, cnt, _)` on the array: the
`revents` field of every entry in the range is overwritten, the entries
outside the range are left alone. -/
def zsock_poll_store (env : PollEnv) (off cnt : Nat) (p : Pollfds) : Pollfds :=
  { slot0 := if off ≤ 0 ∧ 0 < off + cnt then { p.slot0 with revents := env.revents0 } else p.slot0,
    slot1 := if off ≤ 1 ∧ 1 < off + cnt then { p.slot1 with revents := env.revents1 } else p.slot1 }

/-- Modelled from the spec: the receive call of Zephyr, which is not part of
this repository, `zsock_recvfrom(sock, buf, len, ZSOCK_MSG_TRUNC, NULL, NULL)`.
The result is the return value and the new buffer contents.  A datagram is
copied into the front of the buffer, at most `len` bytes of it, and the mode
reports the true size of the datagram even if it was truncated. -/
def zsock_recvfrom (out : RecvOutcome) (buf : List Nat) (len : Nat) : Int × List Nat :=
  match out with
  | .datagram payload =>
      ((payload.length : Int), payload.take len ++ buf.drop (min payload.length len))
  | .error ret => (ret, buf)

/-- The bytes that the `%s` conversion prints for a character array: those
before the first NUL; `none` when the array holds no NUL. -/
def cstr (buf : List Nat) : Option (List Nat) :=
  if 0 ∈ buf then some (buf.takeWhile (fun b => b ≠ 0)) else none

/-! ## `_poll` (`main.c` lines 80-155) -/

/-- The value of `sizeof(rx_buf)` for `uint8_t rx_buf[256]`. -/
def sizeof_rx_buf : Nat := 256

/-- One call `_poll(sock, pollfds)`: the return value, the array afterwards
and the calls made, in order.  The assignments `sock = -1` at lines 132 and
139 write the by-value parameter only; nothing reads it afterwards. -/
def _poll (P : Platform) (sc : Scenario) (sock : Int) (pollfds : Pollfds) (env : PollEnv) :
    Int × Pollfds × List Call :=
  let t0 := [Call.zsock_poll (active pollfds (EVENT_OFFSET sc) (EVENT_COUNT sc))
              (EVENT_COUNT sc) POLL_TIMEOUT]
  let pollfds := zsock_poll_store env (EVENT_OFFSET sc) (EVENT_COUNT sc) pollfds
  if env.events ≤ 0 then
    (wrap_int (-env.errno), pollfds, t0)
  else
    -- #if (EVENTFD_ONLY || SOCKET_AND_EVENTFD)
    let r1 : Option Int × List Call :=
      if EVENTFD_ONLY sc || SOCKET_AND_EVENTFD sc then
        if pollfds.slot1.revents &&& P.ZSOCK_POLLIN ≠ 0 then
          if env.eventfd_ret < 0 then
            (some env.eventfd_ret, t0 ++ [Call.eventfd_read pollfds.slot1.fd])
          else
            (none, t0 ++ [Call.eventfd_read pollfds.slot1.fd, Call.log_event env.event])
        else (none, t0)
      else (none, t0)
    match r1 with
    | (some ret, t1) => (ret, pollfds, t1)
    | (none, t1) =>
      -- #if (SOCKET_ONLY || SOCKET_AND_EVENTFD)
      if SOCKET_ONLY sc || SOCKET_AND_EVENTFD sc then
        if pollfds.slot0.revents &&& P.ZSOCK_POLLNVAL ≠ 0 then
          (-P.EBADF, pollfds, t1)
        else if pollfds.slot0.revents &&& P.ZSOCK_POLLERR ≠ 0 then
          (-P.ECONNABORTED, pollfds, t1 ++ [Call.zsock_close sock])
        else if pollfds.slot0.revents &&& P.ZSOCK_POLLHUP ≠ 0 then
          (-P.ECONNRESET, pollfds, t1 ++ [Call.zsock_close sock])
        else
          let rx_buf := List.replicate sizeof_rx_buf 0
          let r := zsock_recvfrom env.recv rx_buf sizeof_rx_buf
          let t2 := t1 ++ [Call.zsock_recvfrom sock sizeof_rx_buf]
          if to_unsigned P.size_t_bits r.1 > sizeof_rx_buf then
            (-P.ENOBUFS, pollfds, t2)
          else
            (0, pollfds, t2 ++ [Call.log_received (cstr r.2)])
      else
        (0, pollfds, t1)

/-! ## `_connect` and `main` (`main.c` lines 53-75 and 157-217) -/

/-- The answers of the surroundings during `_connect`. -/
structure ConnectEnv where
  /-- return value of `zsock_socket` -/
  socket_ret : Int
  /-- value of `errno` after `zsock_socket` -/
  socket_errno : Int
  /-- return value of `zsock_connect` -/
  connect_ret : Int
  /-- value of `errno` after `zsock_connect` -/
  connect_errno : Int
deriving Repr, DecidableEq

def _connect (env : ConnectEnv) : Int :=
  let sock := env.socket_ret
  if sock < 0 then wrap_int (-env.socket_errno)
  else if env.connect_ret < 0 then wrap_int (-env.connect_errno)
  else sock

/-- The answers of the surroundings during the start of `main`, and the
contents of the uninitialised `revents` fields of the array on the stack. -/
structure StartEnv where
  connect : ConnectEnv
  /-- return value of `zsock_send` -/
  send_ret : Int
  /-- return value of `eventfd(0, 0)` -/
  eventfd_ret : Int
  stack_revents0 : Nat
  stack_revents1 : Nat
deriving Repr, DecidableEq

/-- Lines 178-208 of `main`: the value of `sock` and the array with which the
loop is entered, or `none` when `main` returns at line 185. -/
def main_start (P : Platform) (sc : Scenario) (env : StartEnv) : Option (Int × Pollfds) :=
  -- #if (SOCKET_ONLY || SOCKET_AND_EVENTFD)
  let sock? : Option Int :=
    if SOCKET_ONLY sc || SOCKET_AND_EVENTFD sc then
      let sock := _connect env.connect
      if sock < 0 then none else some sock
    else some (-1)
  match sock? with
  | none => none
  | some sock =>
    -- #if (EVENTFD_ONLY || SOCKET_AND_EVENTFD)
    let event_fd : Int :=
      if EVENTFD_ONLY sc || SOCKET_AND_EVENTFD sc then env.eventfd_ret else -1
    some (sock,
      { slot0 := { fd := sock, events := P.ZSOCK_POLLIN, revents := env.stack_revents0 },
        slot1 := { fd := event_fd, events := P.ZSOCK_POLLIN, revents := env.stack_revents1 } })

/-- The first `envs.length` rounds of the loop at lines 210-216: the calls
made, in order.  Round `i` is answered by the `i`-th environment. -/
def main_loop (P : Platform) (sc : Scenario) (sock : Int) :
    Pollfds → List PollEnv → List Call
  | _, [] => []
  | pollfds, env :: rest =>
    let r := _poll P sc sock pollfds env
    r.2.2 ++ (if r.1 < 0 then [Call.k_msleep 5000] else []) ++ main_loop P sc sock r.2.1 rest

/-- The program from its start: the calls of the first rounds of the loop,
or `none` when `main` returns before the loop. -/
def main (P : Platform) (sc : Scenario) (start : StartEnv) (envs : List PollEnv) :
    Option (List Call) :=
  match main_start P sc start with
  | none => none
  | some (sock, pollfds) => some (main_loop P sc sock pollfds envs)

/-! ## The timer callback and the eventfd (`main.c` lines 37-48) -/

/-- Modelled from the spec: the eventfd primitive of Zephyr, which is not
part of this repository.  A write adds the value to the 64-bit counter. -/
def eventfd_write (counter : Nat) (value : Nat) : Nat := (counter + value) % 2 ^ 64

/-- Modelled from the spec: the eventfd primitive of Zephyr, which is not
part of this repository.  A read returns the accumulated total and resets
the counter to zero; the result is `(value read, new counter)`. -/
def eventfd_read (counter : Nat) : Nat × Nat := (counter, 0)

/-- The `static int count` of `my_expiry_function` and the counter of the
eventfd that `event_fd` names. -/
structure Notifier where
  count : Int
  counter : Nat
deriving Repr, DecidableEq

/-- The state after `eventfd(0, 0)`, before the first expiry: `count = 1`. -/
def Notifier.init : Notifier := { count := 1, counter := 0 }

/-- One expiry of the timer: `eventfd_write(event_fd, count++)`. -/
def my_expiry_function (s : Notifier) : Notifier :=
  { count := wrap_int (s.count + 1),
    counter := eventfd_write s.counter (to_unsigned 64 s.count) }

/-- One step of an interleaving: an expiry of the timer, or the
`eventfd_read` call that `_poll` makes at line 107. -/
inductive Step where
  | expiry
  | read
deriving Repr, DecidableEq

/-- Runs an interleaving; the result is the list of the values that the
reads return, in order, and the final state. -/
def run_steps : Notifier → List Step → List Nat × Notifier
  | s, [] => ([], s)
  | s, .expiry :: rest => run_steps (my_expiry_function s) rest
  | s, .read :: rest =>
    let r := eventfd_read s.counter
    let out := run_steps { s with counter := r.2 } rest
    (r.1 :: out.1, out.2)

/-! ## Predicates on traces -/

/-- The calls that `_poll` has made when a ready wait gets past the eventfd
block (lines 85-115) without returning: the `zsock_poll` call and, when the
eventfd is compiled in and readable, its read and the log of the value. -/
def calls_before_socket (P : Platform) (sc : Scenario) (pollfds : Pollfds) (env : PollEnv) :
    List Call :=
  Call.zsock_poll (active pollfds (EVENT_OFFSET sc) (EVENT_COUNT sc)) (EVENT_COUNT sc)
      POLL_TIMEOUT ::
    (if (EVENTFD_ONLY sc || SOCKET_AND_EVENTFD sc) = true ∧ env.revents1 &&& P.ZSOCK_POLLIN ≠ 0
      then [Call.eventfd_read pollfds.slot1.fd, Call.log_event env.event] else [])

def Call.is_poll : Call → Bool
  | .zsock_poll _ _ _ => true
  | _ => false

def Call.is_eventfd_read : Call → Bool
  | .eventfd_read _ => true
  | _ => false

def Call.is_recvfrom : Call → Bool
  | .zsock_recvfrom _ _ => true
  | _ => false

def Call.is_close : Call → Bool
  | .zsock_close _ => true
  | _ => false

def Call.is_log_received : Call → Bool
  | .log_received _ => true
  | _ => false

def Call.is_sleep : Call → Bool
  | .k_msleep _ => true
  | _ => false

/-- Some call satisfying `a` occurs in the trace strictly before some call
satisfying `b`. -/
def precedes (a b : Call → Bool) : List Call → Bool
  | [] => false
  | c :: t => (a c && t.any b) || precedes a b t

/-! ## Concrete runs -/

/-- A start in which `zsock_socket` returns handle 3, `zsock_connect` and
`zsock_send` succeed and `eventfd(0, 0)` returns handle 4. -/
def start_ok : StartEnv :=
  { connect := { socket_ret := 3, socket_errno := 0, connect_ret := 0, connect_errno := 0 },
    send_ret := 7, eventfd_ret := 4, stack_revents0 := 0, stack_revents1 := 0 }

/-- The array that `main` builds from `start_ok` when both sources are
compiled in. -/
def pollfds_ok : Pollfds :=
  { slot0 := { fd := 3, events := 1, revents := 0 },
    slot1 := { fd := 4, events := 1, revents := 0 } }

/-- The array that `main` builds from `start_ok` when only the socket is
compiled in: slot 1 holds the unset handle. -/
def pollfds_socket : Pollfds :=
  { slot0 := { fd := 3, events := 1, revents := 0 },
    slot1 := { fd := -1, events := 1, revents := 0 } }

/-- A wait that reports one ready entry with no bit set anywhere; the
concrete runs below override the fields they need. -/
def env_base : PollEnv :=
  { events := 1, errno := 0, revents0 := 0, revents1 := 0, eventfd_ret := 0, event := 0,
    recv := .error (-1) }

/-! # Theorems -/

/-! ## Machine integers -/

/-- An `int` value in range is left alone by `wrap_int`. -/
theorem wrap_int_of_range (x : Int) (h1 : -2 ^ 31 ≤ x) (h2 : x < 2 ^ 31) : wrap_int x = x := by
  unfold wrap_int
  norm_num at h1 h2 ⊢
  omega

/-- A negative `int` converted to an unsigned type of at least 32 bits exceeds 256. -/
theorem to_unsigned_of_neg (w : Nat) (x : Int) (hw : 32 ≤ w) (h1 : -2 ^ 31 ≤ x) (h2 : x < 0) :
    256 < to_unsigned w x := by
  have hp : (2 : Int) ^ 32 ≤ 2 ^ w := by
    exact_mod_cast Nat.pow_le_pow_right (by norm_num) hw
  have hmod : x % 2 ^ w = x + 2 ^ w := by
    have h := Int.add_mul_emod_self (a := x) (b := 1) (c := 2 ^ w)
    rw [one_mul] at h
    rw [← h]
    apply Int.emod_eq_of_lt
    · norm_num at h1 hp ⊢; omega
    · omega
  unfold to_unsigned
  rw [hmod]
  norm_num at h1 hp ⊢
  omega

/-- A non-negative `int` is unchanged by the conversion to an unsigned type of
at least 32 bits. -/
theorem to_unsigned_of_nat (w : Nat) (n : Nat) (hw : 32 ≤ w) (hn : n < 2 ^ 31) :
    to_unsigned w (n : Int) = n := by
  have hp : 2 ^ 32 ≤ 2 ^ w := Nat.pow_le_pow_right (by norm_num) hw
  unfold to_unsigned
  have : ((n : Int) % 2 ^ w) = ((n % 2 ^ w : Nat) : Int) := by push_cast; rfl
  rw [this, Int.toNat_ofNat]
  apply Nat.mod_eq_of_lt
  norm_num at hn hp
  omega

/-! ## The shape of `_poll` -/

/-- No `zsock_close` happens before the socket block. -/
theorem calls_before_socket_filter_close (P : Platform) (sc : Scenario) (pollfds : Pollfds)
    (env : PollEnv) : (calls_before_socket P sc pollfds env).filter Call.is_close = [] := by
  unfold calls_before_socket
  split <;> simp [Call.is_close]

/-- No `zsock_recvfrom` happens before the socket block. -/
theorem calls_before_socket_filter_recvfrom (P : Platform) (sc : Scenario) (pollfds : Pollfds)
    (env : PollEnv) : (calls_before_socket P sc pollfds env).filter Call.is_recvfrom = [] := by
  unfold calls_before_socket
  split <;> simp [Call.is_recvfrom]

/-- No `"Received: %s"` line is logged before the socket block. -/
theorem calls_before_socket_filter_log_received (P : Platform) (sc : Scenario)
    (pollfds : Pollfds) (env : PollEnv) :
    (calls_before_socket P sc pollfds env).filter Call.is_log_received = [] := by
  unfold calls_before_socket
  split <;> simp [Call.is_log_received]

/-- When the wait is ready, the socket is compiled in and the eventfd block
does not return, `_poll` is its socket block (lines 119-154) run after
`calls_before_socket`. -/
theorem poll_socket_block (P : Platform) (sc : Scenario) (sock : Int) (pollfds : Pollfds)
    (env : PollEnv)
    (hsock : (SOCKET_ONLY sc || SOCKET_AND_EVENTFD sc) = true)
    (hready : 0 < env.events)
    (hreach : (EVENTFD_ONLY sc || SOCKET_AND_EVENTFD sc) = true →
      env.revents1 &&& P.ZSOCK_POLLIN ≠ 0 → 0 ≤ env.eventfd_ret) :
    _poll P sc sock pollfds env =
      if env.revents0 &&& P.ZSOCK_POLLNVAL ≠ 0 then
        (-P.EBADF, zsock_poll_store env (EVENT_OFFSET sc) (EVENT_COUNT sc) pollfds,
          calls_before_socket P sc pollfds env)
      else if env.revents0 &&& P.ZSOCK_POLLERR ≠ 0 then
        (-P.ECONNABORTED, zsock_poll_store env (EVENT_OFFSET sc) (EVENT_COUNT sc) pollfds,
          calls_before_socket P sc pollfds env ++ [Call.zsock_close sock])
      else if env.revents0 &&& P.ZSOCK_POLLHUP ≠ 0 then
        (-P.ECONNRESET, zsock_poll_store env (EVENT_OFFSET sc) (EVENT_COUNT sc) pollfds,
          calls_before_socket P sc pollfds env ++ [Call.zsock_close sock])
      else if to_unsigned P.size_t_bits
          (zsock_recvfrom env.recv (List.replicate sizeof_rx_buf 0) sizeof_rx_buf).1
            > sizeof_rx_buf then
        (-P.ENOBUFS, zsock_poll_store env (EVENT_OFFSET sc) (EVENT_COUNT sc) pollfds,
          calls_before_socket P sc pollfds env ++ [Call.zsock_recvfrom sock sizeof_rx_buf])
      else
        (0, zsock_poll_store env (EVENT_OFFSET sc) (EVENT_COUNT sc) pollfds,
          calls_before_socket P sc pollfds env ++
            [Call.zsock_recvfrom sock sizeof_rx_buf,
             Call.log_received (cstr
               (zsock_recvfrom env.recv (List.replicate sizeof_rx_buf 0) sizeof_rx_buf).2)]) := by
  have hnot : ¬ env.events ≤ 0 := by omega
  cases sc
  · simp [_poll, calls_before_socket, hnot, SOCKET_ONLY, SOCKET_AND_EVENTFD, EVENTFD_ONLY,
      EVENT_OFFSET, EVENT_COUNT, zsock_poll_store]
  · simp [SOCKET_ONLY, SOCKET_AND_EVENTFD] at hsock
  · simp only [SOCKET_AND_EVENTFD, EVENTFD_ONLY, Bool.or_true, forall_true_left] at hreach
    by_cases hin : env.revents1 &&& P.ZSOCK_POLLIN = 0
    · simp [_poll, calls_before_socket, hnot, SOCKET_ONLY, SOCKET_AND_EVENTFD, EVENTFD_ONLY,
        EVENT_OFFSET, EVENT_COUNT, zsock_poll_store, hin]
    · have hret : ¬ env.eventfd_ret < 0 := by have := hreach hin; omega
      simp [_poll, calls_before_socket, hnot, SOCKET_ONLY, SOCKET_AND_EVENTFD, EVENTFD_ONLY,
        EVENT_OFFSET, EVENT_COUNT, zsock_poll_store, hin, hret]

/-- The `fd` fields of the array are the same after `_poll` as before, whatever
the call returns: no path of `_poll` writes them. -/
theorem poll_keeps_handles (P : Platform) (sc : Scenario) (sock : Int) (pollfds : Pollfds)
    (env : PollEnv) :
    (_poll P sc sock pollfds env).2.1.slot0.fd = pollfds.slot0.fd ∧
    (_poll P sc sock pollfds env).2.1.slot1.fd = pollfds.slot1.fd := by
  have hstore : ∀ off cnt, (zsock_poll_store env off cnt pollfds).slot0.fd = pollfds.slot0.fd ∧
      (zsock_poll_store env off cnt pollfds).slot1.fd = pollfds.slot1.fd := by
    intro off cnt
    unfold zsock_poll_store
    constructor <;> (simp only []; split <;> rfl)
  have hsnd : (_poll P sc sock pollfds env).2.1 =
      zsock_poll_store env (EVENT_OFFSET sc) (EVENT_COUNT sc) pollfds := by
    unfold _poll
    simp only []
    split
    · rfl
    · split
      · rfl
      · split_ifs <;> rfl
  rw [hsnd]
  exact hstore _ _

/-- A failed wait with a positive `errno` is followed by one `k_msleep(5000)`. -/
theorem backoff_when_errno_positive (P : Platform) (sc : Scenario) (sock : Int)
    (pollfds : Pollfds) (env : PollEnv)
    (hcount : env.events ≤ 0) (hpos : 0 < env.errno) (hhi : env.errno < 2 ^ 31) :
    main_loop P sc sock pollfds [env] =
      [Call.zsock_poll (active pollfds (EVENT_OFFSET sc) (EVENT_COUNT sc))
        (EVENT_COUNT sc) POLL_TIMEOUT, Call.k_msleep 5000] := by
  have hw : wrap_int (-env.errno) = -env.errno :=
    wrap_int_of_range _ (by omega) (by omega)
  simp [main_loop, _poll, hcount, hw, hpos]

/-! ## The receive buffer as a C string -/

/-- Zero padding after a list does not change its part before the first NUL. -/
theorem takeWhile_append_zeros (p : List Nat) (k : Nat) :
    (p ++ List.replicate k 0).takeWhile (fun b => b ≠ 0) = p.takeWhile (fun b => b ≠ 0) := by
  induction p with
  | nil => cases k <;> simp [List.replicate_succ]
  | cons a p ih =>
    by_cases ha : a = 0
    · simp [List.takeWhile_cons, ha]
    · simp only [List.cons_append, List.takeWhile_cons]
      simpa [ha] using ih

/-- A list without a NUL is its own part before the first NUL. -/
theorem takeWhile_of_no_zero (p : List Nat) (h : 0 ∉ p) :
    p.takeWhile (fun b => b ≠ 0) = p := by
  induction p with
  | nil => rfl
  | cons a p ih =>
    simp only [List.mem_cons, not_or] at h
    have ha : a ≠ 0 := fun e => h.1 e.symm
    have ih2 := ih h.2
    simp only [List.takeWhile_cons]
    simpa [ha] using ih2

/-- The buffer after a datagram of at most 256 bytes was received into the
zeroed `rx_buf`, read as a C string. -/
theorem cstr_rx_buf (p : List Nat) (hlen : p.length ≤ 256) (hnul : 0 ∈ p ∨ p.length < 256) :
    cstr (zsock_recvfrom (.datagram p) (List.replicate sizeof_rx_buf 0) sizeof_rx_buf).2 =
      some (p.takeWhile (fun b => b ≠ 0)) := by
  have h1 : p.take 256 = p := List.take_of_length_le hlen
  have h2 : min p.length 256 = p.length := min_eq_left hlen
  simp only [zsock_recvfrom, sizeof_rx_buf, h1, h2, List.drop_replicate, cstr]
  have hmem : 0 ∈ p ++ List.replicate (256 - p.length) 0 := by
    rcases hnul with h | h
    · exact List.mem_append_left _ h
    · apply List.mem_append_right
      rw [List.mem_replicate]
      exact ⟨by omega, rfl⟩
  rw [if_pos hmem, takeWhile_append_zeros]

/-! ## The eventfd counter -/

/-- When every expiry is followed by a read, and the counter starts at zero
or some read happens, the eventfd counter ends at zero. -/
theorem run_steps_final_counter (steps : List Step) :
    ∀ s : Notifier,
      (∀ pre post, steps = pre ++ Step.expiry :: post → Step.read ∈ post) →
      (s.counter = 0 ∨ Step.read ∈ steps) →
      (run_steps s steps).2.counter = 0 := by
  induction steps with
  | nil =>
    intro s _ h
    rcases h with h | h
    · simpa [run_steps] using h
    · simp at h
  | cons st rest ih =>
    intro s hlast _
    have hrest : ∀ pre post, rest = pre ++ Step.expiry :: post → Step.read ∈ post := by
      intro pre post e
      exact hlast (st :: pre) post (by rw [e]; rfl)
    cases st with
    | expiry =>
      have hr : Step.read ∈ rest := hlast [] rest rfl
      simpa [run_steps] using ih (my_expiry_function s) hrest (Or.inr hr)
    | read =>
      simpa [run_steps, eventfd_read] using
        ih { s with counter := 0 } hrest (Or.inl rfl)

/-- Conservation for an interleaving started with `count = k`: the values read
plus the final counter are the initial counter plus `k + (k+1) + ... + (k+n-1)`,
stated with both sides doubled. -/
theorem run_steps_sum (steps : List Step) :
    ∀ (s : Notifier) (k : Nat),
      (0 < steps.count Step.expiry →
        s.count = (k : Int) ∧ k + steps.count Step.expiry ≤ 2 ^ 31) →
      2 * s.counter + steps.count Step.expiry * (2 * k + steps.count Step.expiry) < 2 ^ 64 →
      2 * ((run_steps s steps).1.sum + (run_steps s steps).2.counter) + steps.count Step.expiry
        = 2 * s.counter + steps.count Step.expiry * (2 * k + steps.count Step.expiry) := by
  induction steps with
  | nil =>
    intro s k _ _
    simp [run_steps]
  | cons st rest ih =>
    intro s k hcount hbound
    cases st with
    | expiry =>
      have hc : (Step.expiry :: rest).count Step.expiry = rest.count Step.expiry + 1 := by
        simp
      rw [hc] at hbound hcount ⊢
      obtain ⟨hk, hle⟩ := hcount (by omega)
      set n := rest.count Step.expiry with hn
      have hexp : n * (2 * (k + 1) + n) + 2 * k + 1 = (n + 1) * (2 * k + (n + 1)) := by ring
      have hku : to_unsigned 64 s.count = k := by
        rw [hk]
        unfold to_unsigned
        have : ((k : Int) % 2 ^ 64) = ((k % 2 ^ 64 : Nat) : Int) := by push_cast; rfl
        rw [this, Int.toNat_ofNat]
        apply Nat.mod_eq_of_lt
        norm_num at hle ⊢
        omega
      have hcounter : (my_expiry_function s).counter = s.counter + k := by
        simp only [my_expiry_function, eventfd_write, hku]
        apply Nat.mod_eq_of_lt
        omega
      have hcount2 : 0 < n →
          (my_expiry_function s).count = ((k + 1 : Nat) : Int) ∧ (k + 1) + n ≤ 2 ^ 31 := by
        intro hpos
        refine ⟨?_, by omega⟩
        simp only [my_expiry_function, hk]
        rw [wrap_int_of_range]
        · push_cast; rfl
        · norm_num; omega
        · norm_num at hle ⊢; omega
      have hbound2 : 2 * (my_expiry_function s).counter + n * (2 * (k + 1) + n) < 2 ^ 64 := by
        rw [hcounter]; omega
      have h := ih (my_expiry_function s) (k + 1) hcount2 hbound2
      rw [hcounter] at h
      simp only [run_steps]
      omega
    | read =>
      have hc : (Step.read :: rest).count Step.expiry = rest.count Step.expiry := by
        simp
      rw [hc] at hbound hcount ⊢
      set n := rest.count Step.expiry with hn
      have hcount2 : 0 < n →
          ({ s with counter := 0 } : Notifier).count = (k : Int) ∧ k + n ≤ 2 ^ 31 := hcount
      have hbound2 : 2 * ({ s with counter := 0 } : Notifier).counter + n * (2 * k + n) < 2 ^ 64 := by
        simp only []
        omega
      have h := ih { s with counter := 0 } k hcount2 hbound2
      simp only [run_steps, eventfd_read, List.sum_cons]
      simp only [] at h
      omega

/-- In the interleaving expiry, expiry, read every expiry is followed by a read. -/
theorem every_expiry_read_two_one :
    ∀ pre post, [Step.expiry, Step.expiry, Step.read] = pre ++ Step.expiry :: post →
      Step.read ∈ post := by
  intro pre post h
  rcases pre with _ | ⟨a, _ | ⟨b, _ | ⟨c, pre⟩⟩⟩ <;> simp at h
  · simp [← h]
  · simp [← h.2]

/-- In the interleaving expiry, read, expiry, expiry, read every expiry is
followed by a read. -/
theorem every_expiry_read_three :
    ∀ pre post, [Step.expiry, Step.read, Step.expiry, Step.expiry, Step.read]
      = pre ++ Step.expiry :: post → Step.read ∈ post := by
  intro pre post h
  rcases pre with _ | ⟨a, _ | ⟨b, _ | ⟨c, _ | ⟨d, _ | ⟨e, pre⟩⟩⟩⟩⟩ <;> simp at h
  · simp [← h]
  · simp [← h.2]
  · simp [← h.2]

/-! ## Wait failure (C8) and socket conditions (C7) -/

/-- Claim C8.  When `zsock_poll` returns a count `≤ 0`, for every `int` value
`e` of `errno` whose negation is an `int`, `_poll` returns `-e`, and the
`zsock_poll` call is the only call it makes: no `eventfd_read`, no
`zsock_recvfrom`, no `zsock_close`. -/
theorem C8_wait_failure (P : Platform) (sc : Scenario) (sock : Int) (pollfds : Pollfds)
    (env : PollEnv) (hcount : env.events ≤ 0)
    (hlo : -2 ^ 31 < env.errno) (hhi : env.errno < 2 ^ 31) :
    (_poll P sc sock pollfds env).1 = -env.errno ∧
    (_poll P sc sock pollfds env).2.2 =
      [Call.zsock_poll (active pollfds (EVENT_OFFSET sc) (EVENT_COUNT sc))
        (EVENT_COUNT sc) POLL_TIMEOUT] ∧
    ∀ c ∈ (_poll P sc sock pollfds env).2.2,
      c.is_eventfd_read = false ∧ c.is_recvfrom = false ∧ c.is_close = false := by
  have hw : wrap_int (-env.errno) = -env.errno :=
    wrap_int_of_range _ (by omega) (by omega)
  simp [_poll, hcount, hw, Call.is_eventfd_read, Call.is_recvfrom, Call.is_close]

/-- Witness for C8: `zsock_poll` returns -1 with `errno = EINVAL`. -/
theorem C8_wait_failure_witness :
    (_poll zephyr .socketAndEventfd 3 pollfds_ok
      { env_base with events := -1, errno := 22 }).1 = -22 ∧
    (_poll zephyr .socketAndEventfd 3 pollfds_ok
      { env_base with events := -1, errno := 22 }).2.2 =
      [Call.zsock_poll [pollfds_ok.slot0, pollfds_ok.slot1] 2 (-1)] :=
  ⟨(C8_wait_failure zephyr .socketAndEventfd 3 pollfds_ok
      { env_base with events := -1, errno := 22 } (by decide) (by decide) (by decide)).1,
   (C8_wait_failure zephyr .socketAndEventfd 3 pollfds_ok
      { env_base with events := -1, errno := 22 } (by decide) (by decide) (by decide)).2.1⟩

/-- Claim C7.  In a scenario with the socket, for every ready wait that gets
to the socket block: with the invalid bit, `_poll` returns `-EBADF` and closes
nothing; otherwise with the error bit, it returns `-ECONNABORTED` and its only
close is one `zsock_close(sock)`; otherwise with the hangup bit, it returns
`-ECONNRESET` and its only close is one `zsock_close(sock)`; in all three cases
there is no `zsock_recvfrom` call. -/
theorem C7_socket_conditions (P : Platform) (sc : Scenario) (sock : Int) (pollfds : Pollfds)
    (env : PollEnv)
    (hsock : (SOCKET_ONLY sc || SOCKET_AND_EVENTFD sc) = true)
    (hready : 0 < env.events)
    (hreach : (EVENTFD_ONLY sc || SOCKET_AND_EVENTFD sc) = true →
      env.revents1 &&& P.ZSOCK_POLLIN ≠ 0 → 0 ≤ env.eventfd_ret) :
    (env.revents0 &&& P.ZSOCK_POLLNVAL ≠ 0 →
      (_poll P sc sock pollfds env).1 = -P.EBADF ∧
      (_poll P sc sock pollfds env).2.2.filter Call.is_close = [] ∧
      (_poll P sc sock pollfds env).2.2.filter Call.is_recvfrom = []) ∧
    (env.revents0 &&& P.ZSOCK_POLLNVAL = 0 → env.revents0 &&& P.ZSOCK_POLLERR ≠ 0 →
      (_poll P sc sock pollfds env).1 = -P.ECONNABORTED ∧
      (_poll P sc sock pollfds env).2.2.filter Call.is_close = [Call.zsock_close sock] ∧
      (_poll P sc sock pollfds env).2.2.filter Call.is_recvfrom = []) ∧
    (env.revents0 &&& P.ZSOCK_POLLNVAL = 0 → env.revents0 &&& P.ZSOCK_POLLERR = 0 →
      env.revents0 &&& P.ZSOCK_POLLHUP ≠ 0 →
      (_poll P sc sock pollfds env).1 = -P.ECONNRESET ∧
      (_poll P sc sock pollfds env).2.2.filter Call.is_close = [Call.zsock_close sock] ∧
      (_poll P sc sock pollfds env).2.2.filter Call.is_recvfrom = []) := by
  rw [poll_socket_block P sc sock pollfds env hsock hready hreach]
  refine ⟨?_, ?_, ?_⟩
  · intro h
    simp [h, calls_before_socket_filter_close, calls_before_socket_filter_recvfrom]
  · intro h1 h2
    simp [h1, h2, calls_before_socket_filter_close, calls_before_socket_filter_recvfrom,
      Call.is_close, Call.is_recvfrom]
  · intro h1 h2 h3
    simp [h1, h2, h3, calls_before_socket_filter_close, calls_before_socket_filter_recvfrom,
      Call.is_close, Call.is_recvfrom]

/-- Witness for C7: the three bits, one at a time, in the combined scenario. -/
theorem C7_socket_conditions_witness :
    (_poll zephyr .socketAndEventfd 3 pollfds_ok { env_base with revents0 := 32 }).1 = -9 ∧
    (_poll zephyr .socketAndEventfd 3 pollfds_ok { env_base with revents0 := 32 }).2.2.filter
      Call.is_close = [] ∧
    (_poll zephyr .socketAndEventfd 3 pollfds_ok { env_base with revents0 := 8 }).1 = -113 ∧
    (_poll zephyr .socketAndEventfd 3 pollfds_ok { env_base with revents0 := 8 }).2.2.filter
      Call.is_close = [Call.zsock_close 3] ∧
    (_poll zephyr .socketAndEventfd 3 pollfds_ok { env_base with revents0 := 16 }).1 = -104 ∧
    (_poll zephyr .socketAndEventfd 3 pollfds_ok { env_base with revents0 := 16 }).2.2.filter
      Call.is_recvfrom = [] :=
  ⟨((C7_socket_conditions zephyr .socketAndEventfd 3 pollfds_ok { env_base with revents0 := 32 }
      (by decide) (by decide) (by decide)).1 (by decide)).1,
   ((C7_socket_conditions zephyr .socketAndEventfd 3 pollfds_ok { env_base with revents0 := 32 }
      (by decide) (by decide) (by decide)).1 (by decide)).2.1,
   ((C7_socket_conditions zephyr .socketAndEventfd 3 pollfds_ok { env_base with revents0 := 8 }
      (by decide) (by decide) (by decide)).2.1 (by decide) (by decide)).1,
   ((C7_socket_conditions zephyr .socketAndEventfd 3 pollfds_ok { env_base with revents0 := 8 }
      (by decide) (by decide) (by decide)).2.1 (by decide) (by decide)).2.1,
   ((C7_socket_conditions zephyr .socketAndEventfd 3 pollfds_ok { env_base with revents0 := 16 }
      (by decide) (by decide) (by decide)).2.2 (by decide) (by decide) (by decide)).1,
   ((C7_socket_conditions zephyr .socketAndEventfd 3 pollfds_ok { env_base with revents0 := 16 }
      (by decide) (by decide) (by decide)).2.2 (by decide) (by decide) (by decide)).2.2⟩

/-! ## Receiving (C3, C5, C10) -/

/-- Claim C3 as amended.  On the socket path of `_poll` (socket compiled in,
ready wait, eventfd block passed, none of the invalid, error and hangup bits
set), for a datagram of `S` bytes: if `S > 256`, `_poll` returns `-ENOBUFS` and
logs nothing of the buffer; if `S ≤ 256`, `_poll` returns 0, and when the
datagram holds a NUL byte or `S < 256` it logs the received bytes that precede
the first NUL byte, which are all `S` bytes when the datagram holds no NUL byte. -/
theorem C3_receive_truncation (P : Platform) (sc : Scenario) (sock : Int) (pollfds : Pollfds)
    (env : PollEnv) (payload : List Nat)
    (hsock : (SOCKET_ONLY sc || SOCKET_AND_EVENTFD sc) = true)
    (hready : 0 < env.events)
    (hreach : (EVENTFD_ONLY sc || SOCKET_AND_EVENTFD sc) = true →
      env.revents1 &&& P.ZSOCK_POLLIN ≠ 0 → 0 ≤ env.eventfd_ret)
    (hnval : env.revents0 &&& P.ZSOCK_POLLNVAL = 0)
    (herr : env.revents0 &&& P.ZSOCK_POLLERR = 0)
    (hhup : env.revents0 &&& P.ZSOCK_POLLHUP = 0)
    (hrecv : env.recv = RecvOutcome.datagram payload)
    (hint : payload.length < 2 ^ 31) (hw : 32 ≤ P.size_t_bits) :
    (256 < payload.length →
      (_poll P sc sock pollfds env).1 = -P.ENOBUFS ∧
      (_poll P sc sock pollfds env).2.2.filter Call.is_log_received = []) ∧
    (payload.length ≤ 256 →
      (_poll P sc sock pollfds env).1 = 0 ∧
      (0 ∈ payload ∨ payload.length < 256 →
        (_poll P sc sock pollfds env).2.2.filter Call.is_log_received =
          [Call.log_received (some (payload.takeWhile (fun b => b ≠ 0)))]) ∧
      (0 ∉ payload → payload.length < 256 →
        (_poll P sc sock pollfds env).2.2.filter Call.is_log_received =
          [Call.log_received (some payload)])) := by
  have hsize : to_unsigned P.size_t_bits
      (zsock_recvfrom env.recv (List.replicate sizeof_rx_buf 0) sizeof_rx_buf).1
        = payload.length := by
    rw [hrecv]
    exact to_unsigned_of_nat _ _ hw hint
  rw [poll_socket_block P sc sock pollfds env hsock hready hreach]
  simp only [hnval, herr, hhup, ne_eq, not_true_eq_false, if_false, hsize]
  refine ⟨?_, ?_⟩
  · intro h
    have hgt : payload.length > sizeof_rx_buf := h
    simp only [hgt, if_true]
    simp [calls_before_socket_filter_log_received, Call.is_log_received]
  · intro h
    have hn : ¬ payload.length > sizeof_rx_buf := by
      show ¬ payload.length > 256
      omega
    simp only [hn, if_false, true_and]
    have key : 0 ∈ payload ∨ payload.length < 256 →
        List.filter Call.is_log_received
          (calls_before_socket P sc pollfds env ++
            [Call.zsock_recvfrom sock sizeof_rx_buf,
             Call.log_received (cstr
               (zsock_recvfrom env.recv (List.replicate sizeof_rx_buf 0) sizeof_rx_buf).2)]) =
          [Call.log_received (some (payload.takeWhile (fun b => b ≠ 0)))] := by
      intro hnul
      have hc := cstr_rx_buf payload h hnul
      rw [hrecv, hc]
      simp [calls_before_socket_filter_log_received, Call.is_log_received]
    refine ⟨key, ?_⟩
    intro h0 hlt
    rw [key (Or.inr hlt), takeWhile_of_no_zero payload h0]

/-- Witness for C3: the two-byte datagram `hi` in the socket-only scenario. -/
theorem C3_receive_truncation_witness :
    (_poll zephyr .socketOnly 3 pollfds_socket
      { env_base with revents0 := 1, recv := .datagram [104, 105] }).1 = 0 ∧
    (_poll zephyr .socketOnly 3 pollfds_socket
      { env_base with revents0 := 1, recv := .datagram [104, 105] }).2.2.filter
        Call.is_log_received = [Call.log_received (some [104, 105])] :=
  ⟨((C3_receive_truncation zephyr .socketOnly 3 pollfds_socket
      { env_base with revents0 := 1, recv := .datagram [104, 105] } [104, 105]
      (by decide) (by decide) (by decide) (by decide) (by decide) (by decide) rfl
      (by decide) (by decide)).2 (by decide)).1,
   ((C3_receive_truncation zephyr .socketOnly 3 pollfds_socket
      { env_base with revents0 := 1, recv := .datagram [104, 105] } [104, 105]
      (by decide) (by decide) (by decide) (by decide) (by decide) (by decide) rfl
      (by decide) (by decide)).2 (by decide)).2.2 (by decide) (by decide)⟩

/-- Counterexample to C3 as stated: the three-byte datagram `48 00 69` has
`S = 3 ≤ 256` and `_poll` returns 0, but the log line delivers the single byte
`48`, not the three bytes received. -/
theorem C3_embedded_nul_counterexample :
    ([72, 0, 105] : List Nat).length ≤ 256 ∧
    (_poll zephyr .socketOnly 3 pollfds_socket
      { env_base with revents0 := 1, recv := .datagram [72, 0, 105] }).1 = 0 ∧
    (_poll zephyr .socketOnly 3 pollfds_socket
      { env_base with revents0 := 1, recv := .datagram [72, 0, 105] }).2.2.filter
        Call.is_log_received = [Call.log_received (some [72])] ∧
    (_poll zephyr .socketOnly 3 pollfds_socket
      { env_base with revents0 := 1, recv := .datagram [72, 0, 105] }).2.2.filter
        Call.is_log_received ≠ [Call.log_received (some [72, 0, 105])] := by
  decide

/-- Claim C5, evaluated on a wake of the combined scenario in which only the
eventfd is readable: the socket slot has no `ZSOCK_POLLIN` bit, and `_poll`
still calls `zsock_recvfrom` on the socket after the eventfd read. -/
theorem C5_receive_without_readable_bit :
    ({ env_base with revents1 := 1, event := 1 } : PollEnv).revents0 &&& zephyr.ZSOCK_POLLIN = 0 ∧
    (_poll zephyr .socketAndEventfd 3 pollfds_ok { env_base with revents1 := 1, event := 1 }).2.2 =
      [Call.zsock_poll [{ fd := 3, events := 1, revents := 0 },
                        { fd := 4, events := 1, revents := 0 }] 2 (-1),
       Call.eventfd_read 4,
       Call.log_event 1,
       Call.zsock_recvfrom 3 256] := by
  decide

/-- Claim C10.  On the socket path of `_poll`, for every negative `int` that
`zsock_recvfrom` returns and every `size_t` of at least 32 bits, the value
converted to `size_t` exceeds `sizeof(rx_buf)`, `_poll` returns `-ENOBUFS`
whatever the cause of the failure, the `zsock_recvfrom` call is its last call,
and the buffer is not logged. -/
theorem C10_failed_receive (P : Platform) (sc : Scenario) (sock : Int) (pollfds : Pollfds)
    (env : PollEnv) (ret : Int)
    (hsock : (SOCKET_ONLY sc || SOCKET_AND_EVENTFD sc) = true)
    (hready : 0 < env.events)
    (hreach : (EVENTFD_ONLY sc || SOCKET_AND_EVENTFD sc) = true →
      env.revents1 &&& P.ZSOCK_POLLIN ≠ 0 → 0 ≤ env.eventfd_ret)
    (hnval : env.revents0 &&& P.ZSOCK_POLLNVAL = 0)
    (herr : env.revents0 &&& P.ZSOCK_POLLERR = 0)
    (hhup : env.revents0 &&& P.ZSOCK_POLLHUP = 0)
    (hrecv : env.recv = RecvOutcome.error ret)
    (hneg : ret < 0) (hint : -2 ^ 31 ≤ ret) (hw : 32 ≤ P.size_t_bits) :
    sizeof_rx_buf < to_unsigned P.size_t_bits ret ∧
    (_poll P sc sock pollfds env).1 = -P.ENOBUFS ∧
    (_poll P sc sock pollfds env).2.2 =
      calls_before_socket P sc pollfds env ++ [Call.zsock_recvfrom sock sizeof_rx_buf] ∧
    (_poll P sc sock pollfds env).2.2.filter Call.is_log_received = [] := by
  have hbig : sizeof_rx_buf < to_unsigned P.size_t_bits ret :=
    to_unsigned_of_neg _ _ hw hint hneg
  have hsize : to_unsigned P.size_t_bits
      (zsock_recvfrom env.recv (List.replicate sizeof_rx_buf 0) sizeof_rx_buf).1
        > sizeof_rx_buf := by
    rw [hrecv]
    exact hbig
  rw [poll_socket_block P sc sock pollfds env hsock hready hreach]
  simp only [hnval, herr, hhup, ne_eq, not_true_eq_false, if_false, hsize, if_true]
  simp [hbig, calls_before_socket_filter_log_received, Call.is_log_received]

/-- Witness for C10: `zsock_recvfrom` returns -1 in the socket-only scenario. -/
theorem C10_failed_receive_witness :
    sizeof_rx_buf < to_unsigned 32 (-1) ∧
    (_poll zephyr .socketOnly 3 pollfds_socket { env_base with revents0 := 1 }).1 = -105 ∧
    (_poll zephyr .socketOnly 3 pollfds_socket { env_base with revents0 := 1 }).2.2.filter
      Call.is_log_received = [] :=
  ⟨(C10_failed_receive zephyr .socketOnly 3 pollfds_socket { env_base with revents0 := 1 } (-1)
      (by decide) (by decide) (by decide) (by decide) (by decide) (by decide) rfl
      (by decide) (by decide) (by decide)).1,
   (C10_failed_receive zephyr .socketOnly 3 pollfds_socket { env_base with revents0 := 1 } (-1)
      (by decide) (by decide) (by decide) (by decide) (by decide) (by decide) rfl
      (by decide) (by decide) (by decide)).2.1,
   (C10_failed_receive zephyr .socketOnly 3 pollfds_socket { env_base with revents0 := 1 } (-1)
      (by decide) (by decide) (by decide) (by decide) (by decide) (by decide) rfl
      (by decide) (by decide) (by decide)).2.2.2⟩

/-! ## Order of the handlers (C6) -/

/-- Claim C6 as amended.  In the combined scenario, for every ready wait in
which both slots have the readable bit and neither handler fails (the eventfd
read succeeds, the socket has none of the invalid, error and hangup bits and
receives a datagram of at most 256 bytes), `_poll` returns 0 and makes exactly
the calls listed, so the `eventfd_read` call comes before the `zsock_recvfrom`
call and not after it. -/
theorem C6_eventfd_first (P : Platform) (sock : Int) (pollfds : Pollfds) (env : PollEnv)
    (payload : List Nat)
    (hready : 0 < env.events)
    (_hin0 : env.revents0 &&& P.ZSOCK_POLLIN ≠ 0)
    (hin1 : env.revents1 &&& P.ZSOCK_POLLIN ≠ 0)
    (hev : 0 ≤ env.eventfd_ret)
    (hnval : env.revents0 &&& P.ZSOCK_POLLNVAL = 0)
    (herr : env.revents0 &&& P.ZSOCK_POLLERR = 0)
    (hhup : env.revents0 &&& P.ZSOCK_POLLHUP = 0)
    (hrecv : env.recv = RecvOutcome.datagram payload)
    (hlen : payload.length ≤ 256) (hw : 32 ≤ P.size_t_bits) :
    (_poll P .socketAndEventfd sock pollfds env).1 = 0 ∧
    (_poll P .socketAndEventfd sock pollfds env).2.2 =
      [Call.zsock_poll [pollfds.slot0, pollfds.slot1] 2 POLL_TIMEOUT,
       Call.eventfd_read pollfds.slot1.fd,
       Call.log_event env.event,
       Call.zsock_recvfrom sock sizeof_rx_buf,
       Call.log_received (cstr
         (zsock_recvfrom env.recv (List.replicate sizeof_rx_buf 0) sizeof_rx_buf).2)] ∧
    precedes Call.is_eventfd_read Call.is_recvfrom
      (_poll P .socketAndEventfd sock pollfds env).2.2 = true ∧
    precedes Call.is_recvfrom Call.is_eventfd_read
      (_poll P .socketAndEventfd sock pollfds env).2.2 = false := by
  have hsize : to_unsigned P.size_t_bits
      (zsock_recvfrom env.recv (List.replicate sizeof_rx_buf 0) sizeof_rx_buf).1
        = payload.length := by
    rw [hrecv]
    exact to_unsigned_of_nat _ _ hw (by norm_num; omega)
  have hn : ¬ payload.length > sizeof_rx_buf := by
    show ¬ payload.length > 256
    omega
  rw [poll_socket_block P .socketAndEventfd sock pollfds env rfl hready (fun _ _ => hev)]
  simp only [hnval, herr, hhup, ne_eq, not_true_eq_false, if_false, hsize, hn]
  simp [calls_before_socket, hin1, SOCKET_AND_EVENTFD, EVENT_OFFSET, EVENT_COUNT, SOCKET_ONLY,
    EVENTFD_ONLY, active, precedes, Call.is_eventfd_read, Call.is_recvfrom]

/-- Witness for C6: both slots readable, eventfd value 1, datagram `hi`. -/
theorem C6_eventfd_first_witness :
    (_poll zephyr .socketAndEventfd 3 pollfds_ok
      { env_base with revents0 := 1, revents1 := 1, event := 1,
                      recv := .datagram [104, 105] }).1 = 0 ∧
    precedes Call.is_eventfd_read Call.is_recvfrom
      (_poll zephyr .socketAndEventfd 3 pollfds_ok
        { env_base with revents0 := 1, revents1 := 1, event := 1,
                        recv := .datagram [104, 105] }).2.2 = true :=
  ⟨(C6_eventfd_first zephyr 3 pollfds_ok
      { env_base with revents0 := 1, revents1 := 1, event := 1, recv := .datagram [104, 105] }
      [104, 105] (by decide) (by decide) (by decide) (by decide) (by decide) (by decide)
      (by decide) rfl (by decide) (by decide)).1,
   (C6_eventfd_first zephyr 3 pollfds_ok
      { env_base with revents0 := 1, revents1 := 1, event := 1, recv := .datagram [104, 105] }
      [104, 105] (by decide) (by decide) (by decide) (by decide) (by decide) (by decide)
      (by decide) rfl (by decide) (by decide)).2.2.1⟩

/-- Counterexample to C6 as stated: with both slots readable and both handlers
succeeding, no `zsock_recvfrom` call comes before an `eventfd_read` call. -/
theorem C6_socket_first_counterexample :
    (_poll zephyr .socketAndEventfd 3 pollfds_ok
      { env_base with revents0 := 1, revents1 := 1, event := 1, recv := .datagram [104, 105] }).1 = 0 ∧
    (_poll zephyr .socketAndEventfd 3 pollfds_ok
      { env_base with revents0 := 1, revents1 := 1, event := 1, recv := .datagram [104, 105] }).2.2 =
      [Call.zsock_poll [{ fd := 3, events := 1, revents := 0 },
                        { fd := 4, events := 1, revents := 0 }] 2 (-1),
       Call.eventfd_read 4,
       Call.log_event 1,
       Call.zsock_recvfrom 3 256,
       Call.log_received (some [104, 105])] ∧
    precedes Call.is_recvfrom Call.is_eventfd_read
      (_poll zephyr .socketAndEventfd 3 pollfds_ok
        { env_base with revents0 := 1, revents1 := 1, event := 1,
                        recv := .datagram [104, 105] }).2.2 = false := by
  decide

/-! ## Notifications (C4) -/

/-- Claim C4 as amended.  With the eventfd as the spec gives it, for every
interleaving of `N < 2 ^ 31` expiries of `my_expiry_function` with reads in
which every expiry is followed by some read, the values that the reads return
sum to `N * (N + 1) / 2`: the `k`-th expiry writes `k`, not 1. -/
theorem C4_reads_sum (steps : List Step)
    (hN : steps.count Step.expiry < 2 ^ 31)
    (hlast : ∀ pre post, steps = pre ++ Step.expiry :: post → Step.read ∈ post) :
    (run_steps Notifier.init steps).1.sum =
      steps.count Step.expiry * (steps.count Step.expiry + 1) / 2 := by
  have hfin := run_steps_final_counter steps Notifier.init hlast (Or.inl rfl)
  have hc0 : Notifier.init.counter = 0 := rfl
  set n := steps.count Step.expiry with hn
  have hsq : n * (2 * 1 + n) ≤ 2 ^ 63 := by
    have h1 : n ≤ 2 ^ 31 := by omega
    have h2 : 2 * 1 + n ≤ 2 ^ 32 := by norm_num at hN ⊢; omega
    calc n * (2 * 1 + n) ≤ 2 ^ 31 * 2 ^ 32 := Nat.mul_le_mul h1 h2
      _ = 2 ^ 63 := by norm_num
  have h := run_steps_sum steps Notifier.init 1
    (fun _ => ⟨rfl, by rw [← hn]; omega⟩)
    (by rw [← hn, hc0]; norm_num at hsq ⊢; omega)
  rw [hfin, ← hn, hc0] at h
  have h3 : n * (n + 1) = 2 * (run_steps Notifier.init steps).1.sum := by
    have : n * (2 * 1 + n) = n * (n + 1) + n := by ring
    omega
  rw [h3]
  simp

/-- Witness for C4: expiry, read, expiry, expiry, read; the reads return 1 and
5, whose sum is `3 * 4 / 2`. -/
theorem C4_reads_sum_witness :
    (run_steps Notifier.init
      [Step.expiry, Step.read, Step.expiry, Step.expiry, Step.read]).1.sum = 3 * (3 + 1) / 2 :=
  C4_reads_sum [Step.expiry, Step.read, Step.expiry, Step.expiry, Step.read] (by decide)
    every_expiry_read_three

/-- Counterexample to C4 as stated: after two expiries one read returns
`1 + 2 = 3`, not `N = 2`. -/
theorem C4_two_expiries_counterexample :
    (∀ pre post, [Step.expiry, Step.expiry, Step.read] = pre ++ Step.expiry :: post →
      Step.read ∈ post) ∧
    (run_steps Notifier.init [Step.expiry, Step.expiry, Step.read]).1 = [3] ∧
    (run_steps Notifier.init [Step.expiry, Step.expiry, Step.read]).1.sum ≠
      [Step.expiry, Step.expiry, Step.read].count Step.expiry :=
  ⟨every_expiry_read_two_one, by decide, by decide⟩

/-! ## The loop and the start of `main` (C1, C2, C9) -/

/-- Claim C1, evaluated on a run of the socket-only scenario in which the first
wait reports `ZSOCK_POLLERR` on the socket (handle 3): `_poll` closes the
socket and returns `-ECONNABORTED`, and the next `zsock_poll` call is again
given handle 3 in its active range (and the closed handle is closed a second
time). -/
theorem C1_closed_socket_polled_again :
    main_start zephyr .socketOnly start_ok
      = some (3, pollfds_socket) ∧
    (_poll zephyr .socketOnly 3 pollfds_socket
      { env_base with revents0 := 8 }).1 = -zephyr.ECONNABORTED ∧
    main zephyr .socketOnly start_ok
        [{ env_base with revents0 := 8 }, { env_base with revents0 := 8 }] =
      some [Call.zsock_poll [{ fd := 3, events := 1, revents := 0 }] 1 (-1),
            Call.zsock_close 3,
            Call.k_msleep 5000,
            Call.zsock_poll [{ fd := 3, events := 1, revents := 8 }] 1 (-1),
            Call.zsock_close 3,
            Call.k_msleep 5000] := by
  decide

/-- Claim C2, evaluated on two waits that return 0 while `errno` is 0: `_poll`
returns `-errno = 0`, which `main` does not take for a failure, so the second
`zsock_poll` call follows the first with no `k_msleep` between them. -/
theorem C2_no_backoff_when_errno_is_zero :
    (_poll zephyr .socketOnly 3 pollfds_socket
      { env_base with events := 0, errno := 0 }).1 = 0 ∧
    main zephyr .socketOnly start_ok
        [{ env_base with events := 0, errno := 0 }, { env_base with events := 0, errno := 0 }] =
      some [Call.zsock_poll [{ fd := 3, events := 1, revents := 0 }] 1 (-1),
            Call.zsock_poll [{ fd := 3, events := 1, revents := 0 }] 1 (-1)] := by
  decide

/-- Claim C9, evaluated on a start of the eventfd-only scenario in which
`eventfd(0, 0)` returns -1: `main` reaches the loop, the active range is slot 1
alone, and the `zsock_poll` call is given the unset handle -1. -/
theorem C9_failed_eventfd_is_polled :
    main_start zephyr .eventfdOnly { start_ok with eventfd_ret := -1 } =
      some (-1, { slot0 := { fd := -1, events := 1, revents := 0 },
                  slot1 := { fd := -1, events := 1, revents := 0 } }) ∧
    EVENT_OFFSET .eventfdOnly = 1 ∧ EVENT_COUNT .eventfdOnly = 1 ∧
    main zephyr .eventfdOnly { start_ok with eventfd_ret := -1 }
        [{ env_base with events := -1, errno := 22 }] =
      some [Call.zsock_poll [{ fd := -1, events := 1, revents := 0 }] 1 (-1),
            Call.k_msleep 5000] := by
  decide

end EswifiUdpPollDemo
